import Mathlib

/-!
Shallow embedding of the chatbot-mvp backend (backend/app.py,
backend/data_store.py): the intent classifier, the retriever, the RAG
product handler, the order-status tool-calling round trip and the chat
orchestrator, together with theorems checking the specification's claims.

Python strings are modelled as Lean `String`; `str.lower`/`str.upper`
are modelled by the ASCII `String.toLower`/`String.toUpper` (all data in
the repository is ASCII or Japanese, which both agree on); `x in s` is
modelled by `strIn`; `None` becomes `Option.none`; Python truthiness of
an optional string (`if s:`) is `pyTruthyStr`.  The external Gemini
client is a parameter (`Gemini`), as is the regex engine used by two of
the classifier's rules (`labeled`/`standalone` predicates).
-/

namespace ChatbotMVP

/-- Python `str.lower` (ASCII range; the repository's data is ASCII/Japanese,
on which the two agree). -/
def pyLower (s : String) : String := String.mk (s.data.map Char.toLower)

/-- Python `str.upper` (ASCII range). -/
def pyUpper (s : String) : String := String.mk (s.data.map Char.toUpper)

/-- Python `str.strip` on the whitespace the repository's data uses. -/
def pyStrip (s : String) : String :=
  String.mk (((s.data.dropWhile Char.isWhitespace).reverse.dropWhile
    Char.isWhitespace).reverse)

/-- `needle.isPrefixOf hay` on character lists. -/
def isPrefixChars : List Char → List Char → Bool
  | [], _ => true
  | _ :: _, [] => false
  | a :: as, b :: bs => a == b && isPrefixChars as bs

/-- `needle` occurs as a contiguous infix of `hay` (character lists). -/
def containsSub : List Char → List Char → Bool
  | [], needle => isPrefixChars needle []
  | b :: bs, needle => isPrefixChars needle (b :: bs) || containsSub bs needle

/-- Python `needle in hay` for strings. -/
def strIn (needle hay : String) : Bool := containsSub hay.data needle.data

/-- Python truthiness of an optional string: `None` and `""` are falsy. -/
def pyTruthyStr : Option String → Bool
  | none => false
  | some s => s ≠ ""

/-- Python `f"{x}"` on an optional string: `None` renders as `"None"`. -/
def pyShowOpt : Option String → String
  | none => "None"
  | some s => s

/-- Python `dict.get` on an association list (first binding wins). -/
def pyGet : List (String × String) → String → Option String
  | [], _ => none
  | (k, v) :: rest, key => if k == key then some v else pyGet rest key

-- ===== Data model (backend/data_store.py) =====

/-- A product record of `product_database` (data_store.py lines 70-93). -/
structure Product where
  id : String
  name : String
  keywords : List String
  price : Nat
  description : String
deriving DecidableEq

/-- An order record of `order_database` (data_store.py lines 95-115); the
status-specific date fields are optional. -/
structure Order where
  order_id : String
  customer_name : String
  status : String
  shipped_date : Option String := none
  estimated_delivery : Option String := none
  delivered_date : Option String := none
deriving DecidableEq

/-- `faq_database` (data_store.py lines 63-68), as an association list. -/
def faq_database : List (String × String) :=
  [("送料はいくらですか？", "全国一律500円（税込）となっております。"),
   ("営業時間は？", "当店の営業時間は、平日午前9時から午後6時までです。"),
   ("支払い方法は何がありますか？", "クレジットカード、銀行振込、代金引換がご利用いただけます。")]

/-- `product_database` (data_store.py lines 70-93; the literal assignment
that overrides the earlier JSON load). -/
def product_database : List Product :=
  [{ id := "prod001", name := "すごいTシャツ",
     keywords := ["tシャツ", "t-shirt", "すごいtシャツ"],
     price := 3000,
     description := "着心地抜群！最新技術で作られたすごいTシャツです。色は白と黒があります。" },
   { id := "prod002", name := "便利なマグカップ",
     keywords := ["マグカップ", "カップ", "便利なマグカップ"],
     price := 1500,
     description := "取っ手が持ちやすく、たっぷり容量の便利なマグカップ。コーヒータイムに最適です。" },
   { id := "prod003", name := "多機能ボールペン",
     keywords := ["ボールペン", "ペン", "多機能ボールペン", "多機能ペン"],
     price := 800,
     description := "黒・赤ボールペンとシャープペンシルが一本になった多機能ペン。ビジネスシーンで活躍します。" }]

/-- `order_database` (data_store.py lines 95-115). -/
def order_database : List Order :=
  [{ order_id := "ORD123", customer_name := "テストユーザーA",
     status := "発送済み", shipped_date := some "2025-04-10" },
   { order_id := "ORD456", customer_name := "テストユーザーB",
     status := "処理中", estimated_delivery := some "2025-04-16" },
   { order_id := "XYZ789", customer_name := "テストユーザーC",
     status := "配達完了", delivered_date := some "2025-04-12" }]

-- ===== Data access functions (backend/data_store.py lines 119-196) =====

/-- `get_faq_answer`: exact-match FAQ lookup (`faq_database.get(query)`). -/
def get_faq_answer (query : String) : Option String :=
  pyGet faq_database query

/-- The keyword loop of `find_product`: first keyword contained in the
lowered query wins. -/
def keyword_hit : List String → String → Bool
  | [], _ => false
  | k :: ks, ql => if strIn k ql then true else keyword_hit ks ql

/-- The product loop of `find_product`: name check, then keyword check,
then the next product. -/
def find_product_loop : List Product → String → Option Product
  | [], _ => none
  | p :: ps, ql =>
    if strIn (pyLower p.name) ql then some p
    else if keyword_hit p.keywords ql then some p
    else find_product_loop ps ql

/-- `find_product`: first product whose name or a keyword occurs in the
lowered query. -/
def find_product (query : String) : Option Product :=
  find_product_loop product_database (pyLower query)

/-- The loop of `get_order_info`: first order with a truthy `order_id`
matching case-insensitively. -/
def order_lookup : List Order → String → Option Order
  | [], _ => none
  | o :: os, idUpper =>
    if o.order_id ≠ "" && pyUpper o.order_id == idUpper then some o
    else order_lookup os idUpper

/-- `get_order_info`: returns `none` for `None`/empty ids, otherwise a
case-insensitive lookup in `order_database`. -/
def get_order_info (order_id : Option String) : Option Order :=
  match order_id with
  | none => none
  | some s => if s = "" then none else order_lookup order_database (pyUpper s)

/-- The relevance score of `retrieve_product_info`: 2 for a name match
plus 1 if some keyword matches (the loop breaks at the first keyword). -/
def product_score (query_lower : String) (p : Product) : Nat :=
  (if strIn (pyLower p.name) query_lower then 2 else 0) +
  (if keyword_hit p.keywords query_lower then 1 else 0)

/-- The per-product info block of `retrieve_product_info`. -/
def render_info (p : Product) : String :=
  "商品名: " ++ p.name ++ "\n価格: " ++ toString p.price ++ "円\n説明: " ++ p.description

/-- Stable descending insertion by score: an element is placed before the
first strictly-smaller-or-equal-scoring later element only when its score
is strictly larger, so equal scores keep their original order.  Models
Python's stable `list.sort(key=score, reverse=True)`. -/
def insertDesc (x : Nat × String) : List (Nat × String) → List (Nat × String)
  | [] => [x]
  | y :: ys => if x.1 < y.1 then y :: insertDesc x ys else x :: y :: ys

/-- Stable descending sort by score (models Python's stable sort with
`reverse=True`). -/
def sortDesc : List (Nat × String) → List (Nat × String)
  | [] => []
  | x :: xs => insertDesc x (sortDesc xs)

/-- The scored relevant-info list built by `retrieve_product_info`'s loop:
`(score, info)` pairs for the products with positive score, in database
order. -/
def relevant_info (query_lower : String) : List (Nat × String) :=
  (product_database.map (fun p => (product_score query_lower p, render_info p))).filter
    (fun x => 0 < x.1)

/-- The header of the retrieved context string. -/
def context_header : String := "関連する可能性のある商品情報:\n\n"

/-- The separator joining retrieved entries. -/
def context_sep : String := "\n\n---\n\n"

/-- `retrieve_product_info`: `none` when no product scores, otherwise the
header plus the top-2 info blocks of the stable descending sort. -/
def retrieve_product_info (query : String) : Option String :=
  let ql := pyLower query
  let rel := relevant_info ql
  if rel = [] then none
  else
    some (context_header ++ String.intercalate context_sep ((sortDesc rel).take 2 |>.map (·.2)))

-- ===== Generation-client (Gemini) response model (backend/app.py) =====

/-- A requested tool call (`part.function_call`): a name and an argument
mapping (`args.get('order_id')` may be absent). -/
structure FunctionCall where
  name : String
  args : List (String × String)
deriving DecidableEq

/-- A tool-result payload (`protos.FunctionResponse(name, response={'result': r})`). -/
structure FunctionResponse where
  name : String
  result : String
deriving DecidableEq

/-- A content part: at most one of a text payload, a tool-call request or
a tool result (absent fields model parts lacking that attribute). -/
structure Part where
  text : Option String := none
  function_call : Option FunctionCall := none
  function_response : Option FunctionResponse := none
deriving DecidableEq

/-- A conversation turn (`protos.Content(role, parts)`). -/
structure Content where
  role : String
  parts : List Part
deriving DecidableEq

/-- A response candidate (`response.candidates[i]`). -/
structure Candidate where
  content : Content
deriving DecidableEq

/-- A raw generation response: candidate list, optional direct `text`
attribute, and whether `prompt_feedback.block_reason` is truthy. -/
structure RawResponse where
  candidates : List Candidate
  text : Option String := none
  block_reason : Bool := false
deriving DecidableEq

/-- The parts of the first candidate's content ( `[]` when there is no
candidate, matching the falsy access guard in the source). -/
def first_parts (r : RawResponse) : List Part :=
  match r.candidates with
  | [] => []
  | c :: _ => c.content.parts

/-- Truthiness of `response.candidates and response.candidates[0].content.parts`. -/
def has_first_parts (r : RawResponse) : Bool :=
  match r.candidates with
  | [] => false
  | c :: _ => c.content.parts ≠ []

/-- `"".join(part.text for part in parts if hasattr(part,'text'))`. -/
def join_text_parts (r : RawResponse) : String :=
  String.join ((first_parts r).filterMap (·.text))

/-- A function declaration of the tool schema (the dictionary at app.py
lines 87-102). -/
structure FuncDecl where
  name : String
  description : String
  param_name : String
  param_type : String
  param_description : String
  required : List String
deriving DecidableEq

/-- `get_order_info_func_declaration` (app.py lines 87-102). -/
def get_order_info_func_declaration : FuncDecl :=
  { name := "get_order_info",
    description := "Retrieves the current status (e.g., shipped, processing) and details for a specific order based on the provided order ID.",
    param_name := "order_id",
    param_type := "STRING",
    param_description := "The unique identifier or number of the order to check the status for (e.g., 'ORD123', 'XYZ789')",
    required := ["order_id"] }

/-- `available_tools = [get_order_info_func_declaration]` (app.py line 104). -/
def available_tools : List FuncDecl := [get_order_info_func_declaration]

/-- `available_tools` as the optional value the route checks (the
dictionary literal never fails, so it is always present). -/
def available_tools_opt : Option (List FuncDecl) := some available_tools

/-- Input of a `generate_content` call: a single prompt string or a
conversation history. -/
inductive GenInput where
  | prompt (s : String)
  | history (h : List Content)
deriving DecidableEq

/-- A recorded `generate_content` call: its input and the tool schema
passed (if any). -/
structure GenCall where
  input : GenInput
  tools : Option (List FuncDecl)
deriving DecidableEq

/-- The external Gemini client: a function from call input and optional
tool schema to either a raised exception (message) or a raw response. -/
def Gemini : Type := GenInput → Option (List FuncDecl) → Except String RawResponse

-- ===== Response text extraction (the four inline call sites) =====

/-- Extraction at the RAG call site (app.py lines 150-161): candidates
first, then direct text, then blocked, then an unexpected-format
placeholder. -/
def extract_rag (r : RawResponse) : String :=
  if has_first_parts r then join_text_parts r
  else if r.text.isSome then r.text.getD ""
  else if r.block_reason then "(The response was blocked due to safety settings.)"
  else "(Unexpected AI response format.)"

/-- Extraction at the round-2 (post-tool) call site (app.py lines
322-328): candidates first, then direct text, then blocked; unexpected
shapes keep the preinitialized default. -/
def extract_final (r : RawResponse) : String :=
  if has_first_parts r then join_text_parts r
  else if r.text.isSome then r.text.getD ""
  else if r.block_reason then "(The final response was blocked.)"
  else "(Error parsing final AI response)"

/-- Extraction at the round-1 (no tool call requested) call site (app.py
lines 333-339): candidates first, then direct text, then blocked;
unexpected shapes keep the preinitialized default. -/
def extract_initial (r : RawResponse) : String :=
  if has_first_parts r then join_text_parts r
  else if r.text.isSome then r.text.getD ""
  else if r.block_reason then "(The initial response was blocked.)"
  else "(Error parsing initial AI response)"

/-- Extraction at the general-chat call site (app.py lines 364-370):
unlike the other three sites, the direct `text` attribute is tried
BEFORE the candidate parts. -/
def extract_general (r : RawResponse) : String :=
  if r.text.isSome then r.text.getD ""
  else if has_first_parts r then join_text_parts r
  else if r.block_reason then "(General response was blocked)"
  else "(Error parsing general AI response)"

-- ===== Lookup Store interface (the functions app.py imports) =====

/-- The Lookup Store collaborator: the four functions `app.py` imports
from `data_store`.  The concrete instance is `theStore`. -/
structure Store where
  get_faq_answer : String → Option String
  find_product : String → Option Product
  get_order_info : Option String → Option Order
  retrieve_product_info : String → Option String

/-- The concrete data store of `data_store.py`. -/
def theStore : Store :=
  { get_faq_answer := get_faq_answer,
    find_product := find_product,
    get_order_info := get_order_info,
    retrieve_product_info := retrieve_product_info }

-- ===== Intent classifier (app.py lines 181-209, detect_intent) =====

/-- The intent tags. -/
inductive Intent where
  | faq
  | product_info
  | order_status
  | general_chat
deriving DecidableEq

/-- `order_keywords` (app.py line 193). -/
def order_keywords : List String :=
  ["注文", "オーダー", "発送", "いつ届きますか", "届かない", "配送",
   "order", "shipment", "delivery", "status", "track"]

/-- The `any(keyword in query_lower ...)` check of rule 3. -/
def order_keyword_hit (query_lower : String) : Bool :=
  order_keywords.any (fun k => strIn k query_lower)

/-- `detect_intent` (app.py lines 181-209).  The two `re.search` calls of
rule 4 are the external regex engine, modelled by the predicates
`labeled` (the labeled order-id pattern of line 197) and `standalone`
(the bare order-id pattern of line 200), both applied to the raw query
as in the source. -/
def detect_intent (st : Store) (labeled standalone : String → Bool)
    (query : String) : Intent :=
  let query_lower := pyLower query
  if pyTruthyStr (st.get_faq_answer query) then .faq
  else if (st.find_product query).isSome then .product_info
  else if order_keyword_hit query_lower then .order_status
  else if labeled query then .order_status
  else if standalone query then .order_status
  else .general_chat

-- ===== Product-info (RAG) handler (app.py lines 125-178) =====

/-- The RAG prompt template (app.py lines 135-143). -/
def rag_prompt (retrieved_context query : String) : String :=
  "Based *only* on the relevant information below, please answer the customer's question **in English**. Summarize and edit the information into a natural conversational response, not bullet points. If the information is not present, state honestly that you cannot answer from the provided information. You are a friendly shop assistant.\n\n# Relevant Information\n"
  ++ retrieved_context
  ++ "\n\n# Customer Question\n"
  ++ query
  ++ "\n\n# Assistant Response (in English):"

/-- The fixed no-context message of the RAG handler (app.py line 178). -/
def no_product_info_msg : String :=
  "Sorry, no relevant product information was found. Could you please ask more specifically?"

/-- The fixed generation-failure apology of the RAG handler (app.py line 174). -/
def rag_failure_msg : String :=
  "Relevant information was found, but an error occurred during AI response generation. Please try again later."

/-- The model-unavailable message of the RAG handler (app.py line 132). -/
def rag_model_missing_msg : String :=
  "The AI model is not ready, so product descriptions cannot be generated. Please contact the administrator."

/-- `get_product_info_handler` (app.py lines 125-178).  `llm?` is the
ambient `gemini_model` (absent when initialization failed).  The second
component logs every `generate_content` call the handler makes. -/
def get_product_info_handler (st : Store) (llm? : Option Gemini)
    (query : String) : String × List GenCall :=
  let retrieved_context := st.retrieve_product_info query
  if pyTruthyStr retrieved_context then
    match llm? with
    | none => (rag_model_missing_msg, [])
    | some llm =>
      let p := rag_prompt (retrieved_context.getD "") query
      let call : GenCall := { input := .prompt p, tools := none }
      match llm (.prompt p) none with
      | .error _ => (rag_failure_msg, [call])
      | .ok r => (extract_rag r, [call])
  else
    (no_product_info_msg, [])

-- ===== Order-status tool round (app.py lines 251-348) =====

/-- The check at app.py lines 271-275: the first part of the first
candidate, when it carries a `function_call` named `get_order_info`. -/
def first_function_call (r : RawResponse) : Option FunctionCall :=
  match r.candidates with
  | [] => none
  | c :: _ =>
    match c.content.parts with
    | [] => none
    | p :: _ =>
      match p.function_call with
      | some fc => if fc.name = "get_order_info" then some fc else none
      | none => none

/-- `fc_response.candidates[0].content` (app.py line 311); only evaluated
on the path where a candidate exists. -/
def first_candidate_content (r : RawResponse) : Content :=
  match r.candidates with
  | [] => { role := "", parts := [] }
  | c :: _ => c.content

/-- The tool-result string built at app.py lines 289-297 from the
AI-supplied order id and the local lookup result. -/
def build_tool_content (order_id_from_ai : Option String)
    (function_result_data : Option Order) : String :=
  match function_result_data with
  | some o =>
    let base := "The status for Order ID '" ++ pyShowOpt order_id_from_ai
      ++ "' is '" ++ o.status ++ "'."
    if o.status == "発送済み" && pyTruthyStr o.shipped_date then
      base ++ " (Shipped on " ++ pyShowOpt o.shipped_date ++ ")"
    else if o.status == "処理中" && pyTruthyStr o.estimated_delivery then
      base ++ " (Estimated delivery: " ++ pyShowOpt o.estimated_delivery ++ ")"
    else if o.status == "配達完了" && pyTruthyStr o.delivered_date then
      base ++ " (Delivered on " ++ pyShowOpt o.delivered_date ++ ")"
    else base
  | none => "Order ID '" ++ pyShowOpt order_id_from_ai ++ "' was not found."

/-- The fixed extra instruction appended to the round-2 history (app.py
lines 315-317). -/
def english_instruction : String :=
  "Now, using the function result provided, please answer the original user query in English."

/-- The round-2 conversation history (app.py lines 303-317): user turn,
the model's round-1 content verbatim, the tool-result turn, and then the
appended English-answer instruction turn. -/
def round2_history (user_query : String) (model_turn : Content)
    (function_response_content : String) : List Content :=
  let function_response_part : Part :=
    { function_response :=
        some { name := "get_order_info", result := function_response_content } }
  [{ role := "user", parts := [{ text := some user_query }] },
   model_turn,
   { role := "tool", parts := [function_response_part] },
   { role := "user", parts := [{ text := some english_instruction }] }]

-- ===== Chat orchestrator (app.py lines 214-394, chat) =====

/-- Which handler bodies produced a response during one request. -/
inductive PathTag where
  | faqPath
  | productPath
  | orderPath
  | generalPath
deriving DecidableEq

/-- The HTTP-level outcome of `chat`: a 200 `{"response": text}` or an
`{"error": msg}` with its status code. -/
inductive ChatResult where
  | resp (text : String)
  | err (status : Nat) (msg : String)
deriving DecidableEq

/-- The observable behaviour of one `chat` request: the returned result,
the handler paths taken, and the `generate_content` calls made. -/
structure ChatOut where
  result : ChatResult
  trace : List PathTag
  calls : List GenCall
deriving DecidableEq

/-- The general-chat prompt (app.py line 359). -/
def general_prompt (user_query : String) : String :=
  "Please respond in English.\n\nUser query: " ++ user_query

/-- The general-chat block (app.py lines 352-378). -/
def general_chat_branch (llm? : Option Gemini) (user_query : String) :
    ChatResult × List GenCall :=
  match llm? with
  | none => (.err 500 "AI model is not available.", [])
  | some llm =>
    let p := general_prompt user_query
    let call : GenCall := { input := .prompt p, tools := none }
    match llm (.prompt p) none with
    | .error e =>
      (.err 500 ("An internal error occurred during AI response generation: " ++ e), [call])
    | .ok gc_response => (.resp (extract_general gc_response), [call])

/-- The order-status block (app.py lines 251-348): round-1 call with the
tool schema, optional local lookup plus round-2 call on a requested tool
invocation, error wrapping at the block boundary. -/
def order_status_branch (st : Store) (llm? : Option Gemini)
    (user_query : String) : ChatResult × List GenCall :=
  match llm? with
  | none => (.err 500 "AI model is not available.", [])
  | some llm =>
    match available_tools_opt with
    | none => (.err 500 "Function calling configuration is not available.", [])
    | some tools =>
      let call1 : GenCall := { input := .prompt user_query, tools := some tools }
      match llm (.prompt user_query) (some tools) with
      | .error e =>
        (.err 500 ("An error occurred while checking order status: " ++ e), [call1])
      | .ok fc_response =>
        match first_function_call fc_response with
        | some function_call =>
          let order_id_from_ai := pyGet function_call.args "order_id"
          let function_result_data := st.get_order_info order_id_from_ai
          let function_response_content :=
            build_tool_content order_id_from_ai function_result_data
          let history :=
            round2_history user_query (first_candidate_content fc_response)
              function_response_content
          let call2 : GenCall := { input := .history history, tools := none }
          match llm (.history history) none with
          | .error e =>
            (.err 500 ("An error occurred while checking order status: " ++ e),
             [call1, call2])
          | .ok response_final => (.resp (extract_final response_final), [call1, call2])
        | none => (.resp (extract_initial fc_response), [call1])

/-- Dispatch after the FAQ block (app.py lines 246-385): the
`product_info` / `order_status` / `general_chat` blocks; a `faq` intent
reaching this point would leave `response` unset and hit the defensive
500 at lines 382-385. -/
def dispatch (st : Store) (llm? : Option Gemini) (user_query : String) :
    Intent → ChatOut
  | .product_info =>
    let h := get_product_info_handler st llm? user_query
    { result := .resp h.1, trace := [.productPath], calls := h.2 }
  | .order_status =>
    let h := order_status_branch st llm? user_query
    { result := h.1, trace := [.orderPath], calls := h.2 }
  | .general_chat =>
    let h := general_chat_branch llm? user_query
    { result := h.1, trace := [.generalPath], calls := h.2 }
  | .faq =>
    { result := .err 500 "Internal server error: Could not generate response.",
      trace := [], calls := [] }

/-- The `/chat` route (app.py lines 214-394).  `classify` is the
classifier the route calls (`detect_intent` in the source); `data` is
the parsed JSON body (`None` when parsing fails, otherwise the key/value
pairs).  Missing/falsy body or missing `query` key yields the 400 error;
otherwise the stripped query is classified, the FAQ block answers
directly or falls back once to `general_chat`, and the remaining blocks
dispatch on the (possibly reassigned) intent. -/
def chat (classify : String → Intent) (st : Store) (llm? : Option Gemini)
    (data : Option (List (String × String))) : ChatOut :=
  match data with
  | none =>
    { result := .err 400 "Request body must contain 'query'.", trace := [], calls := [] }
  | some d =>
    if d = [] ∨ (pyGet d "query") = none then
      { result := .err 400 "Request body must contain 'query'.", trace := [], calls := [] }
    else
      let user_query := pyStrip ((pyGet d "query").getD "")
      let intent := classify user_query
      if intent = .faq then
        match st.get_faq_answer user_query with
        | some response_text =>
          { result := .resp response_text, trace := [.faqPath], calls := [] }
        | none => dispatch st llm? user_query .general_chat
      else dispatch st llm? user_query intent

-- ===== Helper lemmas =====

theorem isPrefixChars_self_append (a rest : List Char) :
    isPrefixChars a (a ++ rest) = true := by
  induction a with
  | nil => rfl
  | cons c cs ih => simp [isPrefixChars, ih]

theorem isPrefixChars_extend (n h rest : List Char)
    (hp : isPrefixChars n h = true) : isPrefixChars n (h ++ rest) = true := by
  induction n generalizing h with
  | nil => rfl
  | cons c cs ih =>
    cases h with
    | nil => simp [isPrefixChars] at hp
    | cons b bs =>
      simp only [isPrefixChars, Bool.and_eq_true] at hp ⊢
      exact ⟨hp.1, ih bs hp.2⟩

theorem containsSub_of_isPrefix (h n : List Char)
    (hp : isPrefixChars n h = true) : containsSub h n = true := by
  cases h with
  | nil => exact hp
  | cons b bs => simp [containsSub, hp]

theorem containsSub_append_right (h n rest : List Char)
    (hc : containsSub h n = true) : containsSub (h ++ rest) n = true := by
  induction h with
  | nil =>
    simp only [containsSub] at hc
    exact containsSub_of_isPrefix rest n (isPrefixChars_extend n [] rest hc)
  | cons b bs ih =>
    simp only [containsSub, Bool.or_eq_true] at hc ⊢
    rcases hc with hc | hc
    · exact Or.inl (by
        have := isPrefixChars_extend n (b :: bs) rest hc
        simpa using this)
    · exact Or.inr (ih hc)

theorem containsSub_append_left (pre h n : List Char)
    (hc : containsSub h n = true) : containsSub (pre ++ h) n = true := by
  induction pre with
  | nil => exact hc
  | cons b bs ih => simp [containsSub, ih]

/-- A string occurs in any sandwich around it. -/
theorem strIn_sandwich (pre mid post : String) :
    strIn mid (pre ++ mid ++ post) = true := by
  unfold strIn
  rw [String.data_append, String.data_append, List.append_assoc]
  apply containsSub_append_left
  exact containsSub_of_isPrefix _ _ (isPrefixChars_self_append mid.data post.data)

/-- Occurrence is stable under appending on the right. -/
theorem strIn_append_right (n h rest : String) (hc : strIn n h = true) :
    strIn n (h ++ rest) = true := by
  unfold strIn at hc ⊢
  rw [String.data_append]
  exact containsSub_append_right _ _ _ hc

/-- The keyword loop of `find_product`/`retrieve_product_info` is the
existence of a matching keyword. -/
theorem keyword_hit_eq_any (ks : List String) (ql : String) :
    keyword_hit ks ql = ks.any (fun k => strIn k ql) := by
  induction ks with
  | nil => rfl
  | cons k rest ih =>
    simp only [keyword_hit, List.any_cons]
    by_cases h : strIn k ql = true
    · simp [h]
    · simp only [Bool.not_eq_true] at h
      simp [h, ih]

-- stable descending sort lemmas

theorem insertDesc_perm (x : Nat × String) (l : List (Nat × String)) :
    (insertDesc x l).Perm (x :: l) := by
  induction l with
  | nil => exact List.Perm.refl _
  | cons y ys ih =>
    simp only [insertDesc]
    by_cases h : x.1 < y.1
    · simp only [h, if_true]
      exact ((ih.cons y).trans (List.Perm.swap x y ys))
    · simp [h]

theorem sortDesc_perm (l : List (Nat × String)) : (sortDesc l).Perm l := by
  induction l with
  | nil => exact List.Perm.refl _
  | cons x xs ih =>
    exact (insertDesc_perm x (sortDesc xs)).trans (ih.cons x)

theorem insertDesc_pairwise (x : Nat × String) (l : List (Nat × String))
    (hl : l.Pairwise (fun a b => b.1 ≤ a.1)) :
    (insertDesc x l).Pairwise (fun a b => b.1 ≤ a.1) := by
  induction l with
  | nil => simp [insertDesc]
  | cons y ys ih =>
    rw [List.pairwise_cons] at hl
    simp only [insertDesc]
    by_cases h : x.1 < y.1
    · simp only [h, if_true]
      rw [List.pairwise_cons]
      refine ⟨?_, ih hl.2⟩
      intro a ha
      have hmem := (insertDesc_perm x ys).mem_iff.mp ha
      rcases List.mem_cons.mp hmem with ha' | ha'
      · subst ha'; omega
      · exact hl.1 a ha'
    · simp only [h, if_false]
      rw [List.pairwise_cons]
      refine ⟨?_, List.pairwise_cons.mpr hl⟩
      intro a ha
      rcases List.mem_cons.mp ha with ha' | ha'
      · subst ha'; omega
      · have := hl.1 a ha'
        omega

theorem sortDesc_pairwise (l : List (Nat × String)) :
    (sortDesc l).Pairwise (fun a b => b.1 ≤ a.1) := by
  induction l with
  | nil => simp [sortDesc]
  | cons x xs ih => exact insertDesc_pairwise x (sortDesc xs) ih

theorem insertDesc_filter_score (x : Nat × String) (l : List (Nat × String))
    (v : Nat) :
    (insertDesc x l).filter (fun y => y.1 == v) =
      (if x.1 == v then [x] else []) ++ l.filter (fun y => y.1 == v) := by
  induction l with
  | nil =>
    by_cases hx : (x.1 == v) = true <;>
      simp [insertDesc, List.filter, hx]
  | cons y ys ih =>
    simp only [insertDesc]
    by_cases h : x.1 < y.1
    · simp only [h, if_true]
      by_cases hy : (y.1 == v) = true
      · have hx : (x.1 == v) = false := by
          have : y.1 = v := by simpa using hy
          have : x.1 ≠ v := by omega
          simpa using this
        simp [List.filter_cons, hy, hx, ih]
      · simp [List.filter_cons, hy, ih]
    · simp only [h, if_false]
      by_cases hx : (x.1 == v) = true
      · simp [List.filter_cons, hx]
      · simp [List.filter_cons, hx]

/-- Stability of the sort: within one score class the original order is
preserved. -/
theorem sortDesc_filter_score (l : List (Nat × String)) (v : Nat) :
    (sortDesc l).filter (fun y => y.1 == v) = l.filter (fun y => y.1 == v) := by
  induction l with
  | nil => rfl
  | cons x xs ih =>
    simp only [sortDesc, insertDesc_filter_score, ih, List.filter_cons]
    by_cases hx : (x.1 == v) = true
    · simp [hx]
    · simp [hx]

-- ===== Concrete fixtures used by witnesses and counterexamples =====

/-- A generation client answering every call with a direct-text response. -/
def llm_text_only : Gemini := fun _ _ =>
  .ok { candidates := [], text := some "Hello! How can I help you today?" }

/-- A generation client that raises on every call. -/
def llm_raise : Gemini := fun _ _ => .error "service unavailable"

/-- The part carrying a `get_order_info` tool call with `order_id = "ORD123"`. -/
def tool_call_part : Part :=
  { function_call := some { name := "get_order_info", args := [("order_id", "ORD123")] } }

/-- A round-1 response requesting the `get_order_info` tool with
`order_id = "ORD123"`. -/
def tool_call_response : RawResponse :=
  { candidates := [{ content := { role := "model", parts := [tool_call_part] } }] }

/-- The part carrying a `get_order_info` tool call with no arguments. -/
def tool_call_part_no_id : Part :=
  { function_call := some { name := "get_order_info", args := [] } }

/-- A round-1 response requesting the tool with no `order_id` argument. -/
def tool_call_response_no_id : RawResponse :=
  { candidates := [{ content := { role := "model", parts := [tool_call_part_no_id] } }] }

/-- The text part of `final_text_response`. -/
def final_text_part : Part :=
  { text := some "Your order ORD123 was shipped on 2025-04-10." }

/-- A plain-text final response for round 2. -/
def final_text_response : RawResponse :=
  { candidates := [{ content := { role := "model", parts := [final_text_part] } }] }

/-- A generation client that requests the tool in round 1 and answers in
round 2. -/
def llm_tool_round : Gemini := fun i _ =>
  match i with
  | .prompt _ => .ok tool_call_response
  | .history _ => .ok final_text_response

/-- Like `llm_tool_round` but the round-1 tool call lacks `order_id`. -/
def llm_tool_round_no_id : Gemini := fun i _ =>
  match i with
  | .prompt _ => .ok tool_call_response_no_id
  | .history _ => .ok final_text_response

/-- A store whose FAQ table answers a query that also matches a product
keyword (used to exercise rule precedence). -/
def store_faq_overlap : Store :=
  { theStore with get_faq_answer := fun q => if q = "tシャツ" then some "overlap answer" else none }

/-- A store whose FAQ table is empty (used to exercise the classifier/store
disagreement fallback). -/
def store_no_faq : Store :=
  { theStore with get_faq_answer := fun _ => none }

/-- A response carrying both a first-candidate text part and a direct
`text` attribute: the candidate-first and text-first extraction orders
disagree on it. -/
def overlap_response : RawResponse :=
  { candidates := [{ content := { role := "model", parts := [{ text := some "A" }] } }],
    text := some "B" }

/-- A response with a first-candidate text part and no direct `text`
attribute. -/
def parts_only_response : RawResponse :=
  { candidates := [{ content := { role := "model", parts := [{ text := some "A" }] } }] }

/-- The model's round-1 turn used in concrete tool-round checks. -/
def model_tool_turn : Content :=
  { role := "model", parts := [tool_call_part] }

-- ===== Claim theorems =====

/-- Keys of the concrete FAQ table are enumerable from a successful lookup. -/
theorem get_faq_answer_cases (k a : String) (h : get_faq_answer k = some a) :
    (k = "送料はいくらですか？" ∧ a = "全国一律500円（税込）となっております。") ∨
    (k = "営業時間は？" ∧ a = "当店の営業時間は、平日午前9時から午後6時までです。") ∨
    (k = "支払い方法は何がありますか？" ∧ a = "クレジットカード、銀行振込、代金引換がご利用いただけます。") := by
  simp only [get_faq_answer, faq_database, pyGet, beq_iff_eq] at h
  split_ifs at h with h1 h2 h3
  · exact Or.inl ⟨h1.symm, (Option.some.inj h).symm⟩
  · exact Or.inr (Or.inl ⟨h2.symm, (Option.some.inj h).symm⟩)
  · exact Or.inr (Or.inr ⟨h3.symm, (Option.some.inj h).symm⟩)

/-- C1: for every query string exactly equal to a key of the FAQ table,
`detect_intent` classifies it as `faq` and the `/chat` route answers with
exactly the stored FAQ text (no generation call, no other path); in
particular the query `送料はいくらですか？` yields the response
`全国一律500円（税込）となっております。`. -/
theorem C1_faq_exact_roundtrip (labeled standalone : String → Bool)
    (llm? : Option Gemini) (k a : String)
    (h : get_faq_answer k = some a) :
    detect_intent theStore labeled standalone k = .faq ∧
    chat (detect_intent theStore labeled standalone) theStore llm?
        (some [("query", k)]) =
      { result := .resp a, trace := [.faqPath], calls := [] } ∧
    (chat (detect_intent theStore labeled standalone) theStore llm?
        (some [("query", "送料はいくらですか？")])).result =
      .resp "全国一律500円（税込）となっております。" := by
  rcases get_faq_answer_cases k a h with ⟨hk, ha⟩ | ⟨hk, ha⟩ | ⟨hk, ha⟩ <;>
    subst hk <;> subst ha <;> exact ⟨rfl, rfl, rfl⟩

/-- C1 witness: the FAQ round trip evaluated at the spec's concrete
scenario. -/
theorem C1_faq_exact_roundtrip_witness :
    get_faq_answer "送料はいくらですか？" = some "全国一律500円（税込）となっております。" ∧
    detect_intent theStore (fun _ => false) (fun _ => false) "送料はいくらですか？" = .faq ∧
    chat (detect_intent theStore (fun _ => false) (fun _ => false)) theStore none
        (some [("query", "送料はいくらですか？")]) =
      { result := .resp "全国一律500円（税込）となっております。",
        trace := [.faqPath], calls := [] } := by
  refine ⟨by decide, ?_, ?_⟩
  · exact (C1_faq_exact_roundtrip (fun _ => false) (fun _ => false) none
      "送料はいくらですか？" "全国一律500円（税込）となっております。" (by decide)).1
  · exact (C1_faq_exact_roundtrip (fun _ => false) (fun _ => false) none
      "送料はいくらですか？" "全国一律500円（税込）となっております。" (by decide)).2.1

/-- C2: `detect_intent` evaluates its rules in the fixed order FAQ →
product → order keyword → labeled id pattern → unlabeled id pattern →
general chat, so a query matching several rules resolves to the earliest
one; in particular a query matching both an FAQ key and a product keyword
yields `faq`. -/
theorem C2_classifier_precedence (st : Store) (labeled standalone : String → Bool)
    (q : String) :
    (pyTruthyStr (st.get_faq_answer q) = true →
       detect_intent st labeled standalone q = .faq) ∧
    (pyTruthyStr (st.get_faq_answer q) = false →
       (st.find_product q).isSome = true →
       detect_intent st labeled standalone q = .product_info) ∧
    (pyTruthyStr (st.get_faq_answer q) = false →
       (st.find_product q).isSome = false →
       (order_keyword_hit (pyLower q) = true ∨ labeled q = true ∨ standalone q = true) →
       detect_intent st labeled standalone q = .order_status) ∧
    (pyTruthyStr (st.get_faq_answer q) = false →
       (st.find_product q).isSome = false →
       order_keyword_hit (pyLower q) = false →
       labeled q = false → standalone q = false →
       detect_intent st labeled standalone q = .general_chat) := by
  unfold detect_intent
  refine ⟨fun h1 => by simp [h1], fun h1 h2 => by simp [h1, h2], ?_, ?_⟩
  · intro h1 h2 h3
    rcases h3 with h3 | h3 | h3 <;> simp [h1, h2, h3]
  · intro h1 h2 h3 h4 h5
    simp [h1, h2, h3, h4, h5]

/-- C2 witness: each rule discharged at a concrete query; the query
`tシャツ` matches both the crafted store's FAQ table and the product
keyword list and resolves to `faq`. -/
theorem C2_classifier_precedence_witness :
    pyTruthyStr (store_faq_overlap.get_faq_answer "tシャツ") = true ∧
    (store_faq_overlap.find_product "tシャツ").isSome = true ∧
    detect_intent store_faq_overlap (fun _ => false) (fun _ => false) "tシャツ" = .faq ∧
    detect_intent theStore (fun _ => false) (fun _ => false) "マグカップはある？" = .product_info ∧
    detect_intent theStore (fun _ => false) (fun _ => false) "where is my order" = .order_status ∧
    detect_intent theStore (fun _ => true) (fun _ => false) "ID: ABC999" = .order_status ∧
    detect_intent theStore (fun _ => false) (fun _ => false) "こんにちは" = .general_chat := by
  refine ⟨by decide, by decide, ?_, ?_, ?_, ?_, ?_⟩
  · exact (C2_classifier_precedence store_faq_overlap (fun _ => false) (fun _ => false)
      "tシャツ").1 (by decide)
  · exact (C2_classifier_precedence theStore (fun _ => false) (fun _ => false)
      "マグカップはある？").2.1 (by decide) (by decide)
  · exact (C2_classifier_precedence theStore (fun _ => false) (fun _ => false)
      "where is my order").2.2.1 (by decide) (by decide) (Or.inl (by decide))
  · exact (C2_classifier_precedence theStore (fun _ => true) (fun _ => false)
      "ID: ABC999").2.2.1 (by decide) (by decide) (Or.inr (Or.inl (by decide)))
  · exact (C2_classifier_precedence theStore (fun _ => false) (fun _ => false)
      "こんにちは").2.2.2 (by decide) (by decide) (by decide) (by decide) (by decide)

/-- C3 counterexample: the claim that the four embedded extraction
functions are equal as functions of the response is false — on a response
carrying both a first-candidate text part (`"A"`) and a direct text
attribute (`"B"`), the RAG site extracts `"A"` while the general-chat
site extracts `"B"`. -/
theorem C3_counterexample_extraction_sites_differ :
    extract_rag overlap_response = "A" ∧
    extract_general overlap_response = "B" ∧
    extract_rag overlap_response ≠ extract_general overlap_response := by
  decide

/-- C3 amended: each of the four call sites applies an ordered extraction
fallback over the same response shapes, and all four agree — returning
the in-order concatenation of the text-bearing parts of the first
candidate — whenever that candidate has a nonempty parts list and the
response has no direct text attribute; moreover the three
candidate-first sites (RAG and both tool rounds) agree whenever the
response has candidate parts or a direct text attribute.  But the four
functions are not equal in general: the general-chat site tries the
direct text attribute before the candidate parts, and the blocked /
unexpected-format placeholders differ per site. -/
theorem C3_extraction_agreement (r : RawResponse) :
    (has_first_parts r = true → r.text = none →
       extract_rag r = join_text_parts r ∧
       extract_final r = join_text_parts r ∧
       extract_initial r = join_text_parts r ∧
       extract_general r = join_text_parts r) ∧
    (has_first_parts r = true ∨ r.text.isSome = true →
       extract_rag r = extract_final r ∧ extract_rag r = extract_initial r) := by
  constructor
  · intro hp ht
    simp [extract_rag, extract_final, extract_initial, extract_general, hp, ht]
  · intro h
    by_cases hp : has_first_parts r = true
    · simp [extract_rag, extract_final, extract_initial, hp]
    · rcases h with h | h
      · exact absurd h hp
      · simp [extract_rag, extract_final, extract_initial, hp, h]

/-- C3 amended witness: the agreement evaluated on a concrete response
with candidate parts and no direct text attribute. -/
theorem C3_extraction_agreement_witness :
    has_first_parts parts_only_response = true ∧
    parts_only_response.text = none ∧
    extract_rag parts_only_response = join_text_parts parts_only_response ∧
    extract_general parts_only_response = join_text_parts parts_only_response := by
  refine ⟨by decide, rfl, ?_, ?_⟩
  · exact ((C3_extraction_agreement parts_only_response).1 (by decide) rfl).1
  · exact ((C3_extraction_agreement parts_only_response).1 (by decide) rfl).2.2.2

/-- C4 counterexample: the round-2 conversation history does not consist
of exactly three turns — at a concrete tool round for `ORD123` it has
four turns (the source appends a fixed English-answer instruction turn
after the tool-result turn). -/
theorem C4_counterexample_three_turns :
    (round2_history "ORD123の状況を教えて" model_tool_turn
        (build_tool_content (some "ORD123") (get_order_info (some "ORD123")))).length
      ≠ 3 := by
  decide

/-- C4 amended: whenever round 1 yields a `get_order_info` tool
invocation, the history sent in round 2 consists of exactly FOUR turns in
this order — a user turn carrying the original query, the model's round-1
turn verbatim, a tool-result turn carrying the constructed result string,
and a final user turn carrying a fixed English-answer instruction — and
the round-2 call passes no tool schema. -/
theorem C4_round2_history_shape (st : Store) (llm : Gemini) (q : String)
    (fcr : RawResponse) (fc : FunctionCall)
    (h1 : llm (.prompt q) (some available_tools) = .ok fcr)
    (h2 : first_function_call fcr = some fc) :
    (round2_history q (first_candidate_content fcr)
        (build_tool_content (pyGet fc.args "order_id")
          (st.get_order_info (pyGet fc.args "order_id")))).length = 4 ∧
    round2_history q (first_candidate_content fcr)
        (build_tool_content (pyGet fc.args "order_id")
          (st.get_order_info (pyGet fc.args "order_id"))) =
      [{ role := "user", parts := [{ text := some q }] },
       first_candidate_content fcr,
       { role := "tool",
         parts := [{ function_response := some ⟨"get_order_info",
           build_tool_content (pyGet fc.args "order_id")
             (st.get_order_info (pyGet fc.args "order_id"))⟩ }] },
       { role := "user", parts := [{ text := some english_instruction }] }] ∧
    (order_status_branch st (some llm) q).2 =
      [{ input := .prompt q, tools := some available_tools },
       { input := .history (round2_history q (first_candidate_content fcr)
           (build_tool_content (pyGet fc.args "order_id")
             (st.get_order_info (pyGet fc.args "order_id")))),
         tools := none }] := by
  refine ⟨rfl, rfl, ?_⟩
  unfold order_status_branch
  simp only [available_tools_opt, h1, h2]
  cases hr : llm (.history (round2_history q (first_candidate_content fcr)
      (build_tool_content (pyGet fc.args "order_id")
        (st.get_order_info (pyGet fc.args "order_id"))))) none <;>
    simp [hr]

/-- C4 amended witness: the four-turn shape and tool-free round-2 call at
a concrete tool round. -/
theorem C4_round2_history_shape_witness :
    llm_tool_round (.prompt "ORD123の状況を教えて") (some available_tools) =
      .ok tool_call_response ∧
    first_function_call tool_call_response =
      some { name := "get_order_info", args := [("order_id", "ORD123")] } ∧
    (round2_history "ORD123の状況を教えて"
        (first_candidate_content tool_call_response)
        (build_tool_content (some "ORD123") (get_order_info (some "ORD123")))).length = 4 ∧
    (order_status_branch theStore (some llm_tool_round) "ORD123の状況を教えて").2 =
      [{ input := .prompt "ORD123の状況を教えて", tools := some available_tools },
       { input := .history (round2_history "ORD123の状況を教えて"
           (first_candidate_content tool_call_response)
           (build_tool_content (some "ORD123") (get_order_info (some "ORD123")))),
         tools := none }] := by
  refine ⟨rfl, by decide, ?_, ?_⟩
  · exact (C4_round2_history_shape theStore llm_tool_round "ORD123の状況を教えて"
      tool_call_response { name := "get_order_info", args := [("order_id", "ORD123")] }
      rfl (by decide)).1
  · exact (C4_round2_history_shape theStore llm_tool_round "ORD123の状況を教えて"
      tool_call_response { name := "get_order_info", args := [("order_id", "ORD123")] }
      rfl (by decide)).2.2

/-- C5: the retriever scores each product 2 for a name substring match
plus 1 if at least one keyword matches (first match wins, at most one per
product); it keeps exactly the positive-score products, sorts them
descending by score with ties in original data-set order (the sort is a
stable permutation), returns `none` when nothing scores, and otherwise
returns the header plus the top-2 entries rendered as
name/price/description and joined by the visible separator. -/
theorem C5_retriever_scoring (q : String) :
    (∀ p, product_score (pyLower q) p =
       (if strIn (pyLower p.name) (pyLower q) then 2 else 0) +
       (if p.keywords.any (fun k => strIn k (pyLower q)) then 1 else 0)) ∧
    (relevant_info (pyLower q) =
       (product_database.map
         (fun p => (product_score (pyLower q) p, render_info p))).filter
           (fun x => 0 < x.1)) ∧
    (retrieve_product_info q = none ↔
       ∀ p ∈ product_database, product_score (pyLower q) p = 0) ∧
    (∀ s, retrieve_product_info q = some s →
       s = context_header ++ String.intercalate context_sep
         (((sortDesc (relevant_info (pyLower q))).take 2).map (·.2))) ∧
    ((sortDesc (relevant_info (pyLower q))).Pairwise (fun a b => b.1 ≤ a.1)) ∧
    ((sortDesc (relevant_info (pyLower q))).Perm (relevant_info (pyLower q))) ∧
    (∀ v, (sortDesc (relevant_info (pyLower q))).filter (fun y => y.1 == v) =
       (relevant_info (pyLower q)).filter (fun y => y.1 == v)) ∧
    (∀ x ∈ relevant_info (pyLower q), 0 < x.1) := by
  refine ⟨?_, rfl, ?_, ?_, sortDesc_pairwise _, sortDesc_perm _,
    fun v => sortDesc_filter_score _ v, ?_⟩
  · intro p
    simp [product_score, keyword_hit_eq_any]
  · constructor
    · intro h
      unfold retrieve_product_info at h
      by_cases hrel : relevant_info (pyLower q) = []
      · intro p hp
        have := List.filter_eq_nil_iff.mp hrel
        have hmem : (product_score (pyLower q) p, render_info p) ∈
            product_database.map
              (fun p => (product_score (pyLower q) p, render_info p)) :=
          List.mem_map_of_mem _ hp
        have := this _ hmem
        simpa using this
      · simp only [hrel, if_false] at h
        simp at h
    · intro h
      unfold retrieve_product_info
      have hrel : relevant_info (pyLower q) = [] := by
        apply List.filter_eq_nil_iff.mpr
        intro x hx
        rcases List.mem_map.mp hx with ⟨p, hp, rfl⟩
        simp [h p hp]
      simp [hrel]
  · intro s hs
    unfold retrieve_product_info at hs
    by_cases hrel : relevant_info (pyLower q) = []
    · simp [hrel] at hs
    · simp only [hrel, if_false, Option.some.injEq] at hs
      exact hs.symm
  · intro x hx
    unfold relevant_info at hx
    exact of_decide_eq_true (List.mem_filter.mp hx).2

/-- C5 witness: the retriever evaluated at a concrete query containing
the first product's exact name (score 2 + keyword 1 = 3) and the second
product's keyword (score 1): both retained, sorted descending, rendered
and joined. -/
theorem C5_retriever_scoring_witness :
    product_score (pyLower "すごいtシャツとカップが欲しい")
      (product_database.get ⟨0, by decide⟩) = 3 ∧
    product_score (pyLower "すごいtシャツとカップが欲しい")
      (product_database.get ⟨1, by decide⟩) = 1 ∧
    product_score (pyLower "すごいtシャツとカップが欲しい")
      (product_database.get ⟨2, by decide⟩) = 0 ∧
    retrieve_product_info "すごいtシャツとカップが欲しい" =
      some (context_header ++ String.intercalate context_sep
        (((sortDesc (relevant_info (pyLower "すごいtシャツとカップが欲しい"))).take 2).map (·.2))) := by
  refine ⟨by decide, by decide, by decide, ?_⟩
  have h := (C5_retriever_scoring "すごいtシャツとカップが欲しい").2.2.2.1
  cases hs : retrieve_product_info "すごいtシャツとカップが欲しい" with
  | none => exact absurd hs (by decide)
  | some s => exact congrArg some (h s hs)

/-- C6: the classified intent is reassigned by the orchestrator at most
once, and the only transition is `faq → general_chat`, taken exactly when
the classifier said `faq` but the FAQ lookup has no entry; in that case
the request is routed through the general-chat path exactly once (trace
`[generalPath]`), with no loop and no raised error; a `faq` intent with
an answer responds directly, and every non-`faq` intent is dispatched
unchanged. -/
theorem C6_intent_fallback (classify : String → Intent) (st : Store)
    (llm? : Option Gemini) (q : String) :
    (classify (pyStrip q) = .faq → st.get_faq_answer (pyStrip q) = none →
       chat classify st llm? (some [("query", q)]) =
         dispatch st llm? (pyStrip q) .general_chat ∧
       (chat classify st llm? (some [("query", q)])).trace = [.generalPath]) ∧
    (∀ a, classify (pyStrip q) = .faq → st.get_faq_answer (pyStrip q) = some a →
       chat classify st llm? (some [("query", q)]) =
         { result := .resp a, trace := [.faqPath], calls := [] }) ∧
    (classify (pyStrip q) ≠ .faq →
       chat classify st llm? (some [("query", q)]) =
         dispatch st llm? (pyStrip q) (classify (pyStrip q))) := by
  have hq : pyGet [("query", q)] "query" = some q := by simp [pyGet]
  refine ⟨?_, ?_, ?_⟩
  · intro hc hf
    have hchat : chat classify st llm? (some [("query", q)]) =
        dispatch st llm? (pyStrip q) .general_chat := by
      unfold chat
      simp [hq, hc, hf]
    refine ⟨hchat, ?_⟩
    rw [hchat]
    rfl
  · intro a hc hf
    unfold chat
    simp [hq, hc, hf]
  · intro hc
    unfold chat
    simp [hq, hc]

/-- C6 witness: with an always-`faq` classifier over a store whose FAQ
table is empty, the request falls back to the general-chat path exactly
once; with the concrete classifier and store, an FAQ query answers
directly and a general query dispatches unchanged. -/
theorem C6_intent_fallback_witness :
    (chat (fun _ => .faq) store_no_faq (some llm_text_only)
        (some [("query", "anything")])).trace = [.generalPath] ∧
    chat (fun _ => .faq) store_no_faq (some llm_text_only)
        (some [("query", "anything")]) =
      dispatch store_no_faq (some llm_text_only) (pyStrip "anything") .general_chat ∧
    chat (detect_intent theStore (fun _ => false) (fun _ => false)) theStore
        (some llm_text_only) (some [("query", "営業時間は？")]) =
      { result := .resp "当店の営業時間は、平日午前9時から午後6時までです。",
        trace := [.faqPath], calls := [] } ∧
    chat (detect_intent theStore (fun _ => false) (fun _ => false)) theStore
        (some llm_text_only) (some [("query", "こんにちは")]) =
      dispatch theStore (some llm_text_only) (pyStrip "こんにちは") .general_chat := by
  refine ⟨?_, ?_, ?_, ?_⟩
  · exact ((C6_intent_fallback (fun _ => .faq) store_no_faq (some llm_text_only)
      "anything").1 rfl rfl).2
  · exact ((C6_intent_fallback (fun _ => .faq) store_no_faq (some llm_text_only)
      "anything").1 rfl rfl).1
  · exact (C6_intent_fallback (detect_intent theStore (fun _ => false) (fun _ => false))
      theStore (some llm_text_only) "営業時間は？").2.1
      "当店の営業時間は、平日午前9時から午後6時までです。" (by decide) (by decide)
  · exact (C6_intent_fallback (detect_intent theStore (fun _ => false) (fun _ => false))
      theStore (some llm_text_only) "こんにちは").2.2 (by decide)

/-- C7: the product-info (RAG) handler distinguishes its failure modes —
absent (or falsy) retrieved context yields the fixed no-information
message with NO generation call; present context with a raising
generation client yields the fixed apology, which differs from the
no-context message; the handler is a total function and so never
propagates a raw fault, and the apology does not depend on the raised
error. -/
theorem C7_rag_failure_modes (st : Store) (llm? : Option Gemini)
    (llm : Gemini) (q e : String) :
    (st.retrieve_product_info q = none →
       get_product_info_handler st llm? q = (no_product_info_msg, [])) ∧
    (∀ ctx, st.retrieve_product_info q = some ctx → ctx ≠ "" →
       llm (.prompt (rag_prompt ctx q)) none = .error e →
       get_product_info_handler st (some llm) q =
         (rag_failure_msg,
          [{ input := .prompt (rag_prompt ctx q), tools := none }])) ∧
    rag_failure_msg ≠ no_product_info_msg := by
  refine ⟨?_, ?_, by decide⟩
  · intro h
    unfold get_product_info_handler
    simp [h, pyTruthyStr]
  · intro ctx hctx hne herr
    unfold get_product_info_handler
    simp [hctx, pyTruthyStr, hne, herr]

/-- C7 witness: the no-context mode at a query matching no product, and
the generation-failure mode at a query with retrieved context and a
raising client. -/
theorem C7_rag_failure_modes_witness :
    theStore.retrieve_product_info "こんにちは" = none ∧
    get_product_info_handler theStore (some llm_raise) "こんにちは" =
      (no_product_info_msg, []) ∧
    theStore.retrieve_product_info "マグカップはある？" ≠ none ∧
    get_product_info_handler theStore (some llm_raise) "マグカップはある？" =
      (rag_failure_msg,
       [{ input := .prompt (rag_prompt
            (context_header ++ "商品名: 便利なマグカップ\n価格: 1500円\n説明: 取っ手が持ちやすく、たっぷり容量の便利なマグカップ。コーヒータイムに最適です。")
            "マグカップはある？"), tools := none }]) := by
  refine ⟨by decide, ?_, by decide, ?_⟩
  · exact (C7_rag_failure_modes theStore (some llm_raise) llm_raise "こんにちは"
      "service unavailable").1 (by decide)
  · exact (C7_rag_failure_modes theStore (some llm_raise) llm_raise "マグカップはある？"
      "service unavailable").2.1
      (context_header ++ "商品名: 便利なマグカップ\n価格: 1500円\n説明: 取っ手が持ちやすく、たっぷり容量の便利なマグカップ。コーヒータイムに最適です。")
      (by decide) (by decide) rfl

/-- Occurrence follows from an explicit sandwich decomposition. -/
theorem strIn_of_eq_sandwich (s pre mid post : String)
    (h : s = pre ++ mid ++ post) : strIn mid s = true :=
  h ▸ strIn_sandwich pre mid post

/-- Every successful tool-result string decomposes as the fixed frame
around the AI-supplied id and the stored status, followed by some
(possibly empty) status-specific tail. -/
theorem build_tool_content_decomp (oid : String) (o : Order) :
    ∃ post, build_tool_content (some oid) (some o) =
      "The status for Order ID '" ++ oid ++ "' is '" ++ o.status ++ "'." ++ post := by
  simp only [build_tool_content]
  by_cases h1 : (o.status == "発送済み" && pyTruthyStr o.shipped_date) = true
  · refine ⟨" (Shipped on " ++ pyShowOpt o.shipped_date ++ ")", ?_⟩
    rw [if_pos h1]
    simp only [pyShowOpt, String.append_assoc]
  · by_cases h2 : (o.status == "処理中" && pyTruthyStr o.estimated_delivery) = true
    · refine ⟨" (Estimated delivery: " ++ pyShowOpt o.estimated_delivery ++ ")", ?_⟩
      rw [if_neg h1, if_pos h2]
      simp only [pyShowOpt, String.append_assoc]
    · by_cases h3 : (o.status == "配達完了" && pyTruthyStr o.delivered_date) = true
      · refine ⟨" (Delivered on " ++ pyShowOpt o.delivered_date ++ ")", ?_⟩
        rw [if_neg h1, if_neg h2, if_pos h3]
        simp only [pyShowOpt, String.append_assoc]
      · refine ⟨"", ?_⟩
        rw [if_neg h1, if_neg h2, if_neg h3]
        simp [pyShowOpt, String.append_assoc]

/-- C8: the tool-result string built from a successful order lookup
contains the order id, the stored status, and the status-specific date
field when present (ship date for `発送済み`, estimated delivery for
`処理中`, delivered date for `配達完了`); a failed lookup yields the fixed
`was not found` string carrying the id, and for the unknown id `ORD999`
that string contains no stored status value. -/
theorem C8_tool_result_content (oid : String) (o : Order)
    (_hfound : get_order_info (some oid) = some o) :
    strIn oid (build_tool_content (some oid) (some o)) = true ∧
    strIn o.status (build_tool_content (some oid) (some o)) = true ∧
    (∀ d, o.status = "発送済み" → o.shipped_date = some d → d ≠ "" →
       strIn d (build_tool_content (some oid) (some o)) = true) ∧
    (∀ d, o.status = "処理中" → o.estimated_delivery = some d → d ≠ "" →
       strIn d (build_tool_content (some oid) (some o)) = true) ∧
    (∀ d, o.status = "配達完了" → o.delivered_date = some d → d ≠ "" →
       strIn d (build_tool_content (some oid) (some o)) = true) ∧
    (∀ i, get_order_info i = none →
       build_tool_content i (get_order_info i) =
         "Order ID '" ++ pyShowOpt i ++ "' was not found.") ∧
    strIn "was not found"
      (build_tool_content (some "ORD999") (get_order_info (some "ORD999"))) = true ∧
    strIn "発送済み"
      (build_tool_content (some "ORD999") (get_order_info (some "ORD999"))) = false ∧
    strIn "処理中"
      (build_tool_content (some "ORD999") (get_order_info (some "ORD999"))) = false ∧
    strIn "配達完了"
      (build_tool_content (some "ORD999") (get_order_info (some "ORD999"))) = false := by
  obtain ⟨post, hpost⟩ := build_tool_content_decomp oid o
  refine ⟨?_, ?_, ?_, ?_, ?_, ?_, by decide, by decide, by decide, by decide⟩
  · exact strIn_of_eq_sandwich _ "The status for Order ID '" oid
      ("' is '" ++ o.status ++ "'." ++ post)
      (by rw [hpost]; simp [String.append_assoc])
  · exact strIn_of_eq_sandwich _ ("The status for Order ID '" ++ oid ++ "' is '")
      o.status ("'." ++ post) (by rw [hpost]; simp [String.append_assoc])
  · intro d hstat hdate hne
    have h1 : (o.status == "発送済み" && pyTruthyStr o.shipped_date) = true := by
      simp [hstat, hdate, pyTruthyStr, hne]
    apply strIn_of_eq_sandwich _
      ("The status for Order ID '" ++ oid ++ "' is '" ++ o.status ++ "'." ++ " (Shipped on ")
      d ")"
    simp only [build_tool_content]
    rw [if_pos h1, hdate]
    simp only [pyShowOpt, String.append_assoc]
  · intro d hstat hdate hne
    have h1 : ¬((o.status == "発送済み" && pyTruthyStr o.shipped_date) = true) := by
      simp [hstat]
    have h2 : (o.status == "処理中" && pyTruthyStr o.estimated_delivery) = true := by
      simp [hstat, hdate, pyTruthyStr, hne]
    apply strIn_of_eq_sandwich _
      ("The status for Order ID '" ++ oid ++ "' is '" ++ o.status ++ "'."
        ++ " (Estimated delivery: ") d ")"
    simp only [build_tool_content]
    rw [if_neg h1, if_pos h2, hdate]
    simp only [pyShowOpt, String.append_assoc]
  · intro d hstat hdate hne
    have h1 : ¬((o.status == "発送済み" && pyTruthyStr o.shipped_date) = true) := by
      simp [hstat]
    have h2 : ¬((o.status == "処理中" && pyTruthyStr o.estimated_delivery) = true) := by
      simp [hstat]
    have h3 : (o.status == "配達完了" && pyTruthyStr o.delivered_date) = true := by
      simp [hstat, hdate, pyTruthyStr, hne]
    apply strIn_of_eq_sandwich _
      ("The status for Order ID '" ++ oid ++ "' is '" ++ o.status ++ "'."
        ++ " (Delivered on ") d ")"
    simp only [build_tool_content]
    rw [if_neg h1, if_neg h2, if_pos h3, hdate]
    simp only [pyShowOpt, String.append_assoc]
  · intro i hi
    rw [hi]
    rfl

/-- C8 witness: the spec's concrete scenario — `ORD123` is shipped with a
ship date, and the tool result contains the id, the status and the date;
`ORD999` is unknown and its tool result states not-found with no status. -/
theorem C8_tool_result_content_witness :
    get_order_info (some "ORD123") =
      some { order_id := "ORD123", customer_name := "テストユーザーA",
             status := "発送済み", shipped_date := some "2025-04-10" } ∧
    strIn "ORD123" (build_tool_content (some "ORD123")
      (some { order_id := "ORD123", customer_name := "テストユーザーA",
              status := "発送済み", shipped_date := some "2025-04-10" })) = true ∧
    strIn "発送済み" (build_tool_content (some "ORD123")
      (some { order_id := "ORD123", customer_name := "テストユーザーA",
              status := "発送済み", shipped_date := some "2025-04-10" })) = true ∧
    strIn "2025-04-10" (build_tool_content (some "ORD123")
      (some { order_id := "ORD123", customer_name := "テストユーザーA",
              status := "発送済み", shipped_date := some "2025-04-10" })) = true := by
  refine ⟨by decide, ?_, ?_, ?_⟩
  · exact (C8_tool_result_content "ORD123" _ (by decide)).1
  · exact (C8_tool_result_content "ORD123" _ (by decide)).2.1
  · exact (C8_tool_result_content "ORD123" _ (by decide)).2.2.1
      "2025-04-10" rfl rfl (by decide)

/-- The general-chat block yields a 200 response or a 500 error, never a
400. -/
theorem general_chat_branch_shape (llm? : Option Gemini) (q : String) :
    (∃ t, (general_chat_branch llm? q).1 = .resp t) ∨
    ∃ m, (general_chat_branch llm? q).1 = .err 500 m := by
  unfold general_chat_branch
  cases llm? with
  | none => exact Or.inr ⟨_, rfl⟩
  | some llm =>
    cases h : llm (.prompt (general_prompt q)) none with
    | error e =>
      refine Or.inr ⟨"An internal error occurred during AI response generation: " ++ e, ?_⟩
      simp [h]
    | ok r =>
      refine Or.inl ⟨extract_general r, ?_⟩
      simp [h]

/-- The order-status block yields a 200 response or a 500 error, never a
400. -/
theorem order_status_branch_shape (st : Store) (llm? : Option Gemini) (q : String) :
    (∃ t, (order_status_branch st llm? q).1 = .resp t) ∨
    ∃ m, (order_status_branch st llm? q).1 = .err 500 m := by
  unfold order_status_branch
  cases llm? with
  | none => exact Or.inr ⟨_, rfl⟩
  | some llm =>
    simp only [available_tools_opt]
    cases h1 : llm (.prompt q) (some available_tools) with
    | error e =>
      refine Or.inr ⟨"An error occurred while checking order status: " ++ e, ?_⟩
      simp [h1]
    | ok fcr =>
      cases h2 : first_function_call fcr with
      | none =>
        refine Or.inl ⟨extract_initial fcr, ?_⟩
        simp [h1, h2]
      | some fc =>
        cases h3 : llm (.history (round2_history q (first_candidate_content fcr)
            (build_tool_content (pyGet fc.args "order_id")
              (st.get_order_info (pyGet fc.args "order_id"))))) none with
        | error e =>
          refine Or.inr ⟨"An error occurred while checking order status: " ++ e, ?_⟩
          simp [h1, h2, h3]
        | ok rf =>
          refine Or.inl ⟨extract_final rf, ?_⟩
          simp [h1, h2, h3]

/-- Dispatch on a non-`faq` intent always takes a handler path and never
produces a 400 client error. -/
theorem dispatch_shape (st : Store) (llm? : Option Gemini) (q : String)
    (i : Intent) (hi : i ≠ .faq) :
    (dispatch st llm? q i).trace ≠ [] ∧
    ∀ m, (dispatch st llm? q i).result ≠ .err 400 m := by
  cases i with
  | faq => exact absurd rfl hi
  | product_info =>
    exact ⟨by simp [dispatch], fun m => by simp [dispatch]⟩
  | order_status =>
    refine ⟨by simp [dispatch], fun m => ?_⟩
    have hsh := order_status_branch_shape st llm? q
    have hres : (dispatch st llm? q .order_status).result =
        (order_status_branch st llm? q).1 := rfl
    rw [hres]
    rcases hsh with ⟨t, ht⟩ | ⟨m', hm⟩
    · simp [ht]
    · simp [hm]
  | general_chat =>
    refine ⟨by simp [dispatch], fun m => ?_⟩
    have hsh := general_chat_branch_shape llm? q
    have hres : (dispatch st llm? q .general_chat).result =
        (general_chat_branch llm? q).1 := rfl
    rw [hres]
    rcases hsh with ⟨t, ht⟩ | ⟨m', hm⟩
    · simp [ht]
    · simp [hm]

/-- C9 counterexample: an empty (but present) query string is NOT
rejected with a client error — with the concrete classifier and store it
reaches the orchestrator and is answered through the general-chat path. -/
theorem C9_counterexample_empty_query_not_rejected :
    (chat (detect_intent theStore (fun _ => false) (fun _ => false)) theStore
        (some llm_text_only) (some [("query", "")])).result =
      .resp "Hello! How can I help you today?" ∧
    (chat (detect_intent theStore (fun _ => false) (fun _ => false)) theStore
        (some llm_text_only) (some [("query", "")])).trace = [.generalPath] := by
  decide

/-- C9 amended: the chat operation returns the 400 client error exactly
when the request body is missing/falsy or lacks the `query` key; every
request whose body carries a `query` key (including one bound to the
empty string) reaches the orchestrator — it is classified and takes a
handler path — and is never answered with the 400 error. -/
theorem C9_input_validation (classify : String → Intent) (st : Store)
    (llm? : Option Gemini) (data : Option (List (String × String))) :
    ((chat classify st llm? data).result =
        .err 400 "Request body must contain 'query'." ↔
      (data = none ∨ ∃ d, data = some d ∧ (d = [] ∨ pyGet d "query" = none))) ∧
    (∀ d, data = some d → d ≠ [] → pyGet d "query" ≠ none →
       (chat classify st llm? data).trace ≠ [] ∧
       (chat classify st llm? data).result ≠
         .err 400 "Request body must contain 'query'.") := by
  cases data with
  | none =>
    refine ⟨by simp [chat], ?_⟩
    intro d hd
    exact absurd hd (by simp)
  | some d =>
    by_cases hcond : d = [] ∨ pyGet d "query" = none
    · refine ⟨?_, ?_⟩
      · constructor
        · intro _
          exact Or.inr ⟨d, rfl, hcond⟩
        · intro _
          unfold chat
          simp [hcond]
      · intro d' hd' hne hq
        injection hd' with hdd
        subst hdd
        rcases hcond with h | h
        · exact absurd h hne
        · exact absurd h hq
    · have hgoal : (chat classify st llm? (some d)).trace ≠ [] ∧
          (chat classify st llm? (some d)).result ≠
            .err 400 "Request body must contain 'query'." := by
        unfold chat
        simp only [hcond, if_false]
        by_cases hf : classify (pyStrip ((pyGet d "query").getD "")) = .faq
        · rw [if_pos hf]
          cases ha : st.get_faq_answer (pyStrip ((pyGet d "query").getD "")) with
          | some a => exact ⟨by simp, by simp⟩
          | none =>
            have hd := dispatch_shape st llm?
              (pyStrip ((pyGet d "query").getD "")) .general_chat (by simp)
            exact ⟨hd.1, hd.2 _⟩
        · rw [if_neg hf]
          have hd := dispatch_shape st llm?
            (pyStrip ((pyGet d "query").getD ""))
            (classify (pyStrip ((pyGet d "query").getD ""))) hf
          exact ⟨hd.1, hd.2 _⟩
      refine ⟨?_, fun d' hd' _ _ => ?_⟩
      · constructor
        · intro h
          exact absurd h hgoal.2
        · intro h
          rcases h with h | ⟨d', hd', h⟩
          · exact absurd h (by simp)
          · injection hd' with hdd
            subst hdd
            exact absurd h hcond
      · exact hgoal

/-- C9 amended witness: a well-formed body takes a handler path, an
empty body is rejected with the 400 error. -/
theorem C9_input_validation_witness :
    (chat (detect_intent theStore (fun _ => false) (fun _ => false)) theStore
        (some llm_text_only) (some [("query", "こんにちは")])).trace ≠ [] ∧
    (chat (detect_intent theStore (fun _ => false) (fun _ => false)) theStore
        (some llm_text_only) (some [])).result =
      .err 400 "Request body must contain 'query'." := by
  constructor
  · exact ((C9_input_validation
      (detect_intent theStore (fun _ => false) (fun _ => false)) theStore
      (some llm_text_only) (some [("query", "こんにちは")])).2
      [("query", "こんにちは")] rfl (by decide) (by decide)).1
  · exact (C9_input_validation
      (detect_intent theStore (fun _ => false) (fun _ => false)) theStore
      (some llm_text_only) (some [])).1.mpr (Or.inr ⟨[], rfl, Or.inl rfl⟩)

/-- `pyUpper` preserves emptiness. -/
theorem pyUpper_empty_iff (s : String) : pyUpper s = "" ↔ s = "" := by
  constructor
  · intro h
    have hd : (pyUpper s).data = [] := by rw [h]
    have : s.data.map Char.toUpper = [] := hd
    have hnil : s.data = [] := List.map_eq_nil_iff.mp this
    cases s
    simp at hnil
    simp [hnil]
  · intro h
    subst h
    rfl

/-- C10: `get_order_info` is total and never raises — it returns the
absent value for `None` and for the empty string, and otherwise its
result depends only on the upper-cased id (case-insensitive match
against the stored ids); consequently a round-1 tool invocation whose
arguments lack `order_id` produces the `was not found` tool-result
string (with the id rendered as `None`) and completes the round trip
instead of raising. -/
theorem C10_order_lookup_safety (s t : String) :
    get_order_info none = none ∧
    get_order_info (some "") = none ∧
    (pyUpper s = pyUpper t → get_order_info (some s) = get_order_info (some t)) ∧
    (∀ (llm : Gemini) (q : String) (fcr : RawResponse) (fc : FunctionCall),
       llm (.prompt q) (some available_tools) = .ok fcr →
       first_function_call fcr = some fc →
       pyGet fc.args "order_id" = none →
       build_tool_content (pyGet fc.args "order_id")
           (theStore.get_order_info (pyGet fc.args "order_id")) =
         "Order ID 'None' was not found." ∧
       (order_status_branch theStore (some llm) q).2 =
         [{ input := .prompt q, tools := some available_tools },
          { input := .history (round2_history q (first_candidate_content fcr)
              "Order ID 'None' was not found."), tools := none }]) := by
  refine ⟨rfl, rfl, ?_, ?_⟩
  · intro hup
    by_cases hs : s = ""
    · have ht : t = "" := by
        subst hs
        exact (pyUpper_empty_iff t).mp hup.symm
      subst hs
      subst ht
      rfl
    · have ht : t ≠ "" := by
        intro hteq
        subst hteq
        exact hs ((pyUpper_empty_iff s).mp hup)
      simp only [get_order_info]
      rw [if_neg hs, if_neg ht, hup]
  · intro llm q fcr fc h1 h2 harg
    have hbt : build_tool_content (pyGet fc.args "order_id")
        (theStore.get_order_info (pyGet fc.args "order_id")) =
        "Order ID 'None' was not found." := by
      rw [harg]
      rfl
    refine ⟨hbt, ?_⟩
    unfold order_status_branch
    simp only [available_tools_opt, h1, h2, hbt]
    cases h3 : llm (.history (round2_history q (first_candidate_content fcr)
        "Order ID 'None' was not found.")) none with
    | error e => simp [h3]
    | ok rf => simp [h3]

/-- C10 witness: the safety facts evaluated concretely — a tool round
whose invocation lacks `order_id` completes with the not-found result
string and a tool-free round-2 call. -/
theorem C10_order_lookup_safety_witness :
    pyUpper "ord123" = pyUpper "ORD123" ∧
    get_order_info (some "ord123") = get_order_info (some "ORD123") ∧
    (order_status_branch theStore (some llm_tool_round_no_id) "check my order").2 =
      [{ input := .prompt "check my order", tools := some available_tools },
       { input := .history (round2_history "check my order"
           (first_candidate_content tool_call_response_no_id)
           "Order ID 'None' was not found."), tools := none }] := by
  refine ⟨by decide, ?_, ?_⟩
  · exact (C10_order_lookup_safety "ord123" "ORD123").2.2.1 (by decide)
  · exact ((C10_order_lookup_safety "" "").2.2.2 llm_tool_round_no_id
      "check my order" tool_call_response_no_id
      { name := "get_order_info", args := [] } rfl (by decide) rfl).2

end ChatbotMVP
